import Mathlib

/-!
Shallow embedding of the Zero2One progression engine (app/models/tasks.py,
app/models/jobs.py, app/models/achievement_chains.py,
app/services/progress_tracker.py, app/services/data_manager.py).

Python dicts are modelled as ordered association lists with unique keys
(insertion order preserved, as CPython guarantees); numeric values are ℚ;
ISO timestamps are ℚ, measured in days since 2000-01-01T00:00:00 (the
literal default written in tasks.py line 98), so that the date() of a
timestamp is its floor and 12 hours is 1/2.  Randomized draws take an
injectable source of draws, as §9 of the design notes prescribes: the
result of random.randint(lo, hi) on draw r is lo + r % (hi - lo + 1),
random.random() < 0.7 is a Bool draw, random.choice over a list is
indexing by a draw modulo the length.  A caught Python exception
(the bare del in remove_task, the call to the undefined
reset_periodic_tasks in update_tasks) is modelled as an explicit
errorCaught outcome with the state exactly as mutated before the raise.
-/

/-- Ordered association list standing for a Python dict. -/
abbrev Dict (α : Type) := List (String × α)

/-- Python d.get(k, default) / d[k] with a default for an absent key. -/
def dget {α : Type} (d : Dict α) (k : String) (default : α) : α :=
  match d with
  | [] => default
  | p :: rest => if p.1 = k then p.2 else dget rest k default

/-- Python d.get(k): the value when the key is present. -/
def dfind {α : Type} (d : Dict α) (k : String) : Option α :=
  match d with
  | [] => none
  | p :: rest => if p.1 = k then some p.2 else dfind rest k

/-- Python k in d. -/
def dmem {α : Type} (d : Dict α) (k : String) : Bool :=
  match d with
  | [] => false
  | p :: rest => p.1 = k || dmem rest k

/-- Python d[k] = v: replace in place when present, append when absent. -/
def dset {α : Type} (d : Dict α) (k : String) (v : α) : Dict α :=
  match d with
  | [] => [(k, v)]
  | p :: rest => if p.1 = k then (k, v) :: rest else p :: dset rest k v

/-- Python del d[k] for a key known to be present. -/
def derase {α : Type} (d : Dict α) (k : String) : Dict α :=
  match d with
  | [] => []
  | p :: rest => if p.1 = k then rest else p :: derase rest k

/-- random.randint(lo, hi) driven by draw r. -/
def randint (lo hi : ℤ) (r : ℕ) : ℤ :=
  lo + (r : ℤ) % (hi - lo + 1)

/-- A task record as created by TaskManager.create_task (tasks.py 226-235). -/
structure TaskRecord where
  id : String
  name : String
  description : String
  task_type : String
  attr : String
  points : ℚ
  completed : Bool
  completed_at : Option ℚ
  created_at : ℚ
deriving Repr, DecidableEq

/-- The user_data dict initialized by DataManager.initialize_new_state
(data_manager.py 112-136); the tasks field models the "tasks" key that
AchievementChainSystem.check_task_completion_rate reads from the user_data
it is handed. -/
structure UserData where
  attributes : Dict ℚ
  streak : ℤ
  last_active : ℚ
  multipliers : Dict ℚ
  makeup_deadline : Option ℚ
  current_job : Option String
  job_history : List (String × ℚ)
  tasks : Dict (Dict TaskRecord)
deriving Repr, DecidableEq

/-- The six attribute names of initialize_new_state (data_manager.py 114-122),
each starting at value 0. -/
def initial_attributes : Dict ℚ :=
  [("Health", 0), ("Physical", 0), ("Intelligence", 0),
   ("Spiritual", 0), ("Creativity", 0), ("Resilience", 0)]

/-- Severity tier data of TaskManager.severity_levels (tasks.py 18-22):
inactive-day range (upper bound none = float inf), penalty range, message. -/
structure SeverityData where
  range_lo : ℤ
  range_hi : Option ℤ
  penalty : ℤ × ℤ
  message : String
deriving Repr, DecidableEq

def severity_levels : List (ℕ × SeverityData) :=
  [(1, ⟨1, some 3, (1, 2), "Minor Setback"⟩),
   (2, ⟨4, some 7, (3, 5), "Significant Decline"⟩),
   (3, ⟨8, none, (6, 8), "Critical Failure"⟩)]

/-- Result of TaskManager.determine_severity: the loop returns a dict with
level, penalty_range and message keys; the fallback return (tasks.py 34)
hands back the raw severity_levels[3] entry, which has a different shape
(range/penalty/message keys, no level and no penalty_range). -/
inductive SeverityResult where
  | found (level : ℕ) (penalty_range : ℤ × ℤ) (message : String)
  | fallback (data : SeverityData)
deriving Repr, DecidableEq

/-- Python: data.range[0] <= missed_days <= data.range[1], with inf upper. -/
def in_severity_range (d : SeverityData) (missed_days : ℤ) : Bool :=
  d.range_lo ≤ missed_days &&
    (match d.range_hi with
     | some hi => missed_days ≤ hi
     | none => true)

/-- TaskManager.determine_severity (tasks.py 25-34). -/
def determine_severity (missed_days : ℤ) : SeverityResult :=
  match severity_levels.find? (fun p => in_severity_range p.2 missed_days) with
  | some p => .found p.1 p.2.penalty p.2.message
  | none => .fallback ⟨8, none, (6, 8), "Critical Failure"⟩

/-- TaskManager.complete_task (tasks.py 313-355).  Returns the Python return
value together with the updated tasks store and user_data.  Only the job
multiplier is read (line 332); final_points = base_points * job_multiplier
(line 336). -/
def complete_task (tasks : Dict (Dict TaskRecord)) (u : UserData)
    (task_id : String) (task_type : String) (now : ℚ) :
    Bool × Dict (Dict TaskRecord) × UserData :=
  match dfind tasks task_type with
  | none => (false, tasks, u)
  | some cat =>
    match dfind cat task_id with
    | none => (false, tasks, u)
    | some stored_task =>
      if stored_task.completed then (false, tasks, u)
      else
        let stored := { stored_task with completed := true, completed_at := some now }
        let job_multiplier := dget u.multipliers "job" 1
        let base_points := stored_task.points
        let final_points := base_points * job_multiplier
        let attr := stored_task.attr
        let current_value := dget u.attributes attr 0
        (true,
         dset tasks task_type (dset cat task_id stored),
         { u with attributes := dset u.attributes attr (current_value + final_points) })

/-- Outcome of a call whose body sits in a try/except: ok, or an exception
was raised and caught (an error message is surfaced to the user). -/
inductive CallOutcome where
  | ok
  | errorCaught
deriving Repr, DecidableEq

/-- TaskManager.remove_task (tasks.py 358-371): the bare del raises KeyError
when the id is absent from an existing category; the except block catches it
and reports an error, leaving the store unchanged.  When the category itself
is absent the del is skipped and no error occurs. -/
def remove_task (tasks : Dict (Dict TaskRecord)) (task_id : String)
    (task_type : String) : CallOutcome × Dict (Dict TaskRecord) :=
  match dfind tasks task_type with
  | none => (.ok, tasks)
  | some cat =>
    if dmem cat task_id then (.ok, dset tasks task_type (derase cat task_id))
    else (.errorCaught, tasks)

/-- Notification data of the penalty st.error message (tasks.py 117-143):
the drawn penalty points and whether the single-attribute branch ran. -/
structure PenaltyNotice where
  points : ℤ
  single : Bool
deriving Repr, DecidableEq

/-- Injectable random source for one update_tasks evaluation:
the randint draw, the random() < 0.7 outcome, the random.choice index. -/
structure PenaltyRand where
  magDraw : ℕ
  branchSingle : Bool
  attrIdx : ℕ
deriving Repr, DecidableEq

/-- TaskManager.update_tasks (tasks.py 60-157).  inactive_days is
current_time.date() - last_active.date() (floors of day-valued timestamps);
the makeup_deadline default "2000-01-01T00:00:00" is day 0.  Every path with
inactive_days > 0 ends by calling self.reset_periodic_tasks (line 146), a
method the class never defines, so an AttributeError is raised there and
caught by the except block: the penalty mutations made before it persist but
last_active is not updated on those paths.  Returns the updated user_data,
the penalty notification if one was emitted, and the outcome. -/
def incomplete_tasks_of (tasks : Dict (Dict TaskRecord)) : List TaskRecord :=
  (tasks.map (fun p => p.2)).flatMap
    (fun cat => (cat.map (fun p => p.2)).filter (fun t => !t.completed))

def update_tasks (tasks : Dict (Dict TaskRecord)) (u : UserData) (now : ℚ)
    (r : PenaltyRand) : UserData × Option PenaltyNotice × CallOutcome :=
  let inactive_days : ℤ := ⌊now⌋ - ⌊u.last_active⌋
  if inactive_days > 0 then
    let incomplete_tasks := incomplete_tasks_of tasks
    if incomplete_tasks ≠ [] then
      let severity := determine_severity inactive_days
      if inactive_days = 1 then
        ({ u with makeup_deadline := some (now + 1/2) }, none, .errorCaught)
      else
        let makeup_deadline := u.makeup_deadline.getD 0
        if now > makeup_deadline then
          match severity with
          | .fallback _ => (u, none, .errorCaught)
          | .found _ penalty_range _ =>
            let penalty_points := randint penalty_range.1 penalty_range.2 r.magDraw
            if u.attributes = [] then (u, none, .errorCaught)
            else if r.branchSingle then
              let attr :=
                (u.attributes.map (fun p => p.1)).getD (r.attrIdx % u.attributes.length) ""
              let current_value := dget u.attributes attr 0
              ({ u with attributes := dset u.attributes attr
                          (max 0 (current_value - (penalty_points : ℚ))) },
               some ⟨penalty_points, true⟩, .errorCaught)
            else
              let per_attribute_penalty := (penalty_points : ℚ) / (u.attributes.length : ℚ)
              ({ u with attributes := u.attributes.map
                          (fun p => (p.1, max 0 (p.2 - per_attribute_penalty))) },
               some ⟨penalty_points, false⟩, .errorCaught)
        else (u, none, .errorCaught)
    else (u, none, .errorCaught)
  else ({ u with last_active := now }, none, .ok)

/-- A catalog entry of JobSystem.jobs (jobs.py 7-246), the fields the
engine logic reads: attribute requirement thresholds and the perk
multiplier (rank_requirement, description, perk text, tier and icon are
presentation only). -/
structure Job where
  attribute_requirements : Dict ℚ
  perk_multiplier : ℚ
deriving Repr, DecidableEq

/-- JobSystem.jobs, jobs.py 7-246.  The requirement keys are written in
lower case in the source. -/
def jobs_catalog : Dict Job :=
  [("Master of None", ⟨[], 1⟩),
   ("Stray Dog", ⟨[("resilience", 50)], 11/10⟩),
   ("Pugilist", ⟨[("physical", 85), ("resilience", 50)], 23/20⟩),
   ("Swindler", ⟨[("intelligence", 85), ("creativity", 50)], 23/20⟩),
   ("Apprentice", ⟨[("intelligence", 85)], 23/20⟩),
   ("Duelist", ⟨[("physical", 170), ("resilience", 85)], 6/5⟩),
   ("Phantom Jester", ⟨[("creativity", 170), ("spiritual", 85)], 6/5⟩),
   ("Marksman", ⟨[("physical", 170), ("intelligence", 85)], 6/5⟩),
   ("Nomad", ⟨[("resilience", 170), ("spiritual", 85)], 6/5⟩),
   ("Shaman", ⟨[("spiritual", 170), ("intelligence", 85)], 5/4⟩),
   ("Iron Sentinel", ⟨[("physical", 255), ("resilience", 170)], 13/10⟩),
   ("Shade Operative", ⟨[("intelligence", 255), ("physical", 170)], 13/10⟩),
   ("Revenant", ⟨[("spiritual", 255), ("resilience", 170)], 13/10⟩),
   ("Battle Hound", ⟨[("physical", 255), ("spiritual", 170)], 27/20⟩),
   ("Order Member", ⟨[("intelligence", 340), ("spiritual", 255), ("resilience", 170)], 7/5⟩),
   ("Elite Assassin", ⟨[("physical", 340), ("intelligence", 255), ("resilience", 170)], 29/20⟩),
   ("Shadow Puppeteer", ⟨[("creativity", 340), ("spiritual", 255), ("intelligence", 170)], 29/20⟩),
   ("The Glitch", ⟨[("intelligence", 425), ("creativity", 425), ("spiritual", 340)], 3/2⟩),
   ("Enigma", ⟨[("spiritual", 425), ("intelligence", 425), ("resilience", 340), ("creativity", 340)], 8/5⟩)]

/-- JobSystem.check_job_requirements (jobs.py 322-331):
user_data.attributes.get(attr, 0) >= required_value for every requirement. -/
def check_job_requirements (job : Job) (u : UserData) : Bool :=
  job.attribute_requirements.all
    (fun p => decide (dget u.attributes p.1 0 ≥ p.2))

/-- JobSystem.get_available_jobs (jobs.py 311-320). -/
def get_available_jobs (u : UserData) : List String :=
  (jobs_catalog.filter (fun p => check_job_requirements p.2 u)).map (fun p => p.1)

/-- JobSystem.accept_job (jobs.py 333-360): set current_job, append to
job_history, then look the job up in the catalog and overwrite the job
multiplier slot with its perk_multiplier.  A name absent from the catalog
raises KeyError at that lookup, caught after the first two mutations. -/
def accept_job (job_name : String) (u : UserData) (now : ℚ) :
    UserData × CallOutcome :=
  let u1 := { u with
                current_job := some job_name,
                job_history := u.job_history ++ [(job_name, now)] }
  match dfind jobs_catalog job_name with
  | none => (u1, .errorCaught)
  | some job =>
    ({ u1 with multipliers := dset u1.multipliers "job" job.perk_multiplier }, .ok)

/-- ProgressTracker.rank_thresholds (progress_tracker.py 19-28). -/
def rank_thresholds : Dict ℚ :=
  [("E", 0), ("D", 85), ("C", 170), ("B", 255),
   ("A", 340), ("S", 425), ("SS", 510), ("SSS", 595)]

/-- The loop of ProgressTracker.calculate_rank walks rank_thresholds in
order with its index i and keeps the last pair with value >= threshold,
taking ranks[i+1][0] when i < len-1 and rank itself at the last index;
this list pairs every rank with that successor so the walk is a fold. -/
def rank_successors : List (String × String × ℚ) :=
  [("E", "D", 0), ("D", "C", 85), ("C", "B", 170), ("B", "A", 255),
   ("A", "S", 340), ("S", "SS", 425), ("SS", "SSS", 510), ("SSS", "SSS", 595)]

/-- ProgressTracker.calculate_rank (progress_tracker.py 30-52). -/
def calculate_rank (value : ℚ) : String × String × ℚ :=
  let ranks :=
    rank_successors.foldl
      (fun acc t => if value ≥ t.2.2 then (t.1, t.2.1) else acc) ("E", "D")
  let current_rank := ranks.1
  let next_rank := ranks.2
  if current_rank ≠ "SSS" then
    let current_threshold := dget rank_thresholds current_rank 0
    let next_threshold := dget rank_thresholds next_rank 0
    let progress :=
      max 0 (min 1 ((value - current_threshold) / (next_threshold - current_threshold)))
    (current_rank, next_rank, progress)
  else
    (current_rank, next_rank, 1)

/-- The unlock predicates stored as lambdas in AchievementChainSystem.chains
(achievement_chains.py 37-129), reified as the closed set of condition shapes
the catalog actually uses (design note §9): a conjunction of attribute
thresholds, a streak threshold, or a streak threshold together with a task
completion rate. -/
inductive ChainReq where
  | attrsAtLeast (reqs : List (String × ℚ))
  | streakAtLeast (n : ℤ)
  | streakWithRate (n : ℤ) (rate : ℚ)
deriving Repr, DecidableEq

/-- AchievementChainSystem.check_task_completion_rate
(achievement_chains.py 259-271): completed/total over the daily and weekly
task dicts of user_data, False when there is no task. -/
def check_task_completion_rate (u : UserData) (required_rate : ℚ) : Bool :=
  let counted :=
    (["daily", "weekly"].map (fun t => dget u.tasks t [])).flatMap
      (fun cat => cat.map (fun p => p.2))
  let total_tasks := counted.length
  let completed_tasks := (counted.filter (fun t => t.completed)).length
  if total_tasks > 0 then
    decide ((completed_tasks : ℚ) / (total_tasks : ℚ) ≥ required_rate)
  else false

/-- Evaluation of a reified chain requirement against user_data; attribute
reads mirror user_data.attributes lookups with 0 for an absent key. -/
def evalChainReq (req : ChainReq) (u : UserData) : Bool :=
  match req with
  | .attrsAtLeast reqs => reqs.all (fun p => decide (dget u.attributes p.1 0 ≥ p.2))
  | .streakAtLeast n => decide (u.streak ≥ n)
  | .streakWithRate n rate => decide (u.streak ≥ n) && check_task_completion_rate u rate

/-- One stage of an achievement chain: name, unlock requirement, reward
dict (keys are attribute names, all_attributes, or streak_multiplier). -/
structure ChainStage where
  name : String
  requirement : ChainReq
  reward : Dict ℚ
deriving Repr, DecidableEq

/-- The AchievementChain objects of achievement_chains.py 7-33. -/
structure Chain where
  chain_id : String
  stages : List ChainStage
  current_stage : ℕ
  completed : Bool
  started_at : Option ℚ
  completed_at : Option ℚ
deriving Repr, DecidableEq

/-- The Physical Mastery chain stages (achievement_chains.py 43-62). -/
def physical_mastery_stages : List ChainStage :=
  [⟨"Beginner Athlete", .attrsAtLeast [("Physical", 100)], [("Physical", 10)]⟩,
   ⟨"Intermediate Athlete", .attrsAtLeast [("Physical", 250)],
    [("Physical", 25), ("Health", 10)]⟩,
   ⟨"Advanced Athlete", .attrsAtLeast [("Physical", 500)], [("all_attributes", 20)]⟩]

/-- The Mind Master chain stages (achievement_chains.py 69-95). -/
def mind_master_stages : List ChainStage :=
  [⟨"Knowledge Seeker", .attrsAtLeast [("Intelligence", 100)], [("Intelligence", 10)]⟩,
   ⟨"Scholar", .attrsAtLeast [("Intelligence", 200), ("Creativity", 100)],
    [("Intelligence", 20), ("Creativity", 10)]⟩,
   ⟨"Sage", .attrsAtLeast [("Intelligence", 400), ("Creativity", 200), ("Spiritual", 100)],
    [("all_attributes", 25)]⟩]

/-- The Consistency King chain stages (achievement_chains.py 102-127);
the Living Legend reward pairs a streak_multiplier with all_attributes. -/
def consistency_king_stages : List ChainStage :=
  [⟨"Habit Former", .streakAtLeast 7, [("streak_multiplier", 11/10)]⟩,
   ⟨"Routine Master", .streakWithRate 30 (4/5), [("streak_multiplier", 6/5)]⟩,
   ⟨"Living Legend", .streakWithRate 100 (9/10),
    [("streak_multiplier", 3/2), ("all_attributes", 50)]⟩]

/-- The chains as loaded by load_chain_progress (achievement_chains.py
132-140): fresh AchievementChain objects at stage 0, not completed. -/
def initial_chains : List Chain :=
  [⟨"physical_mastery", physical_mastery_stages, 0, false, none, none⟩,
   ⟨"mind_master", mind_master_stages, 0, false, none, none⟩,
   ⟨"consistency_king", consistency_king_stages, 0, false, none, none⟩]

/-- AchievementChainSystem.grant_stage_rewards (achievement_chains.py
170-182): when the reward dict has an all_attributes key, add that value to
every attribute and do nothing else; otherwise walk the reward entries,
adding to an existing attribute or overwriting the streak multiplier slot. -/
def grant_stage_rewards (rewards : Dict ℚ) (u : UserData) : UserData :=
  if dmem rewards "all_attributes" then
    { u with attributes :=
               u.attributes.map (fun p => (p.1, p.2 + dget rewards "all_attributes" 0)) }
  else
    rewards.foldl
      (fun acc p =>
        if dmem acc.attributes p.1 then
          { acc with attributes := dset acc.attributes p.1 (dget acc.attributes p.1 0 + p.2) }
        else if p.1 = "streak_multiplier" then
          { acc with multipliers := dset acc.multipliers "streak" p.2 }
        else acc)
      u

/-- AchievementChainSystem.check_chain_progress (achievement_chains.py
148-168): stamp started_at, evaluate only the stage at current_stage, and on
success grant its reward, advance by one and mark completion when the new
index reaches the stage count.  An index past the stage list (impossible for
a chain that is not completed) leaves everything unchanged. -/
def check_chain_progress (chain : Chain) (u : UserData) (now : ℚ) :
    Chain × UserData :=
  let chain :=
    if chain.started_at = none then { chain with started_at := some now } else chain
  match chain.stages.get? chain.current_stage with
  | none => (chain, u)
  | some current_stage =>
    if evalChainReq current_stage.requirement u then
      let u2 := grant_stage_rewards current_stage.reward u
      let advanced := { chain with current_stage := chain.current_stage + 1 }
      if advanced.current_stage ≥ advanced.stages.length then
        ({ advanced with completed := true, completed_at := some now }, u2)
      else (advanced, u2)
    else (chain, u)

/-- AchievementChainSystem.check_chains (achievement_chains.py 142-146):
walk the chains in order, running check_chain_progress on every chain that
is not completed. -/
def check_chains (chains : List Chain) (u : UserData) (now : ℚ) :
    List Chain × UserData :=
  match chains with
  | [] => ([], u)
  | c :: rest =>
    if c.completed then
      let r := check_chains rest u now
      (c :: r.1, r.2)
    else
      let step := check_chain_progress c u now
      let r := check_chains rest step.2 now
      (step.1 :: r.1, r.2)

/-- A sequence of chain evaluations: each element of the list is the
user_data and timestamp one check_chains call runs against (the user state
may change arbitrarily between evaluations). -/
def run_chain_checks (chains : List Chain) (evals : List (UserData × ℚ)) :
    List Chain :=
  match evals with
  | [] => chains
  | e :: rest => run_chain_checks (check_chains chains e.1 e.2).1 rest

lemma mem_dset {α : Type} (d : Dict α) (k : String) (v : α) :
    ∀ q ∈ dset d k v, q = (k, v) ∨ q ∈ d := by
  induction d with
  | nil => simp [dset]
  | cons p rest ih =>
    intro q hq
    unfold dset at hq
    by_cases h : p.1 = k
    · rw [if_pos h] at hq
      rcases List.mem_cons.1 hq with hq | hq
      · exact Or.inl hq
      · exact Or.inr (List.mem_cons_of_mem p hq)
    · rw [if_neg h] at hq
      rcases List.mem_cons.1 hq with hq | hq
      · exact Or.inr (List.mem_cons.2 (Or.inl hq))
      · rcases ih q hq with h2 | h2
        · exact Or.inl h2
        · exact Or.inr (List.mem_cons_of_mem p h2)

lemma severity_found_of_le_3 (d : ℤ) (h1 : 1 ≤ d) (h3 : d ≤ 3) :
    determine_severity d = .found 1 (1, 2) "Minor Setback" := by
  simp [determine_severity, severity_levels, List.find?, in_severity_range, h1, h3]

lemma severity_found_of_mid (d : ℤ) (h4 : 4 ≤ d) (h7 : d ≤ 7) :
    determine_severity d = .found 2 (3, 5) "Significant Decline" := by
  have hn3 : ¬ d ≤ 3 := by omega
  have h1 : (1:ℤ) ≤ d := by omega
  simp [determine_severity, severity_levels, List.find?, in_severity_range, h1, hn3, h4, h7]

lemma severity_found_of_ge_8 (d : ℤ) (h8 : 8 ≤ d) :
    determine_severity d = .found 3 (6, 8) "Critical Failure" := by
  have hn3 : ¬ d ≤ 3 := by omega
  have hn7 : ¬ d ≤ 7 := by omega
  have h1 : (1:ℤ) ≤ d := by omega
  have h4 : (4:ℤ) ≤ d := by omega
  simp [determine_severity, severity_levels, List.find?, in_severity_range,
    h1, hn3, h4, hn7, h8]

/-- Claim C9: for every integer missed_days >= 1, determine_severity returns
the full record with a level in 1..3 and the tier-table penalty range
(1-3 days gives (1,2), 4-7 days gives (3,5), 8 or more days gives (6,8));
the differently-shaped fallback return is unreachable under that
precondition. -/
theorem determine_severity_total (d : ℤ) (h1 : 1 ≤ d) :
    (d ≤ 3 → determine_severity d = .found 1 (1, 2) "Minor Setback") ∧
    (4 ≤ d → d ≤ 7 → determine_severity d = .found 2 (3, 5) "Significant Decline") ∧
    (8 ≤ d → determine_severity d = .found 3 (6, 8) "Critical Failure") ∧
    ∃ level pr msg, determine_severity d = .found level pr msg ∧
      (level = 1 ∨ level = 2 ∨ level = 3) := by
  refine ⟨fun h3 => severity_found_of_le_3 d h1 h3,
          fun h4 h7 => severity_found_of_mid d h4 h7,
          fun h8 => severity_found_of_ge_8 d h8, ?_⟩
  by_cases h3 : d ≤ 3
  · exact ⟨1, (1, 2), "Minor Setback", severity_found_of_le_3 d h1 h3, Or.inl rfl⟩
  by_cases h7 : d ≤ 7
  · exact ⟨2, (3, 5), "Significant Decline",
      severity_found_of_mid d (by omega) h7, Or.inr (Or.inl rfl)⟩
  · exact ⟨3, (6, 8), "Critical Failure",
      severity_found_of_ge_8 d (by omega), Or.inr (Or.inr rfl)⟩

/-- Witness for determine_severity_total at missed_days = 2. -/
theorem determine_severity_total_witness :
    determine_severity 2 = .found 1 (1, 2) "Minor Setback" :=
  (determine_severity_total 2 (by decide)).1 (by decide)

/-- Claim C7 counterexample: evaluated at the SSS lower threshold 595, the
rank calculator returns progress 1, not 0, so the claim that every rank
yields progress 0 at its own lower threshold fails at the top rank. -/
theorem calculate_rank_top_threshold_counterexample :
    calculate_rank 595 = ("SSS", "SSS", 1) ∧ (1 : ℚ) ≠ 0 := by
  refine ⟨?_, by norm_num⟩
  norm_num [calculate_rank, rank_successors]

/-- Claim C7 (amended): for every value the progress is in [0,1]; at the
lower threshold of every rank below the top the progress is 0; and for
every value at or past the SSS threshold the result is currentRank =
nextRank = SSS with progress 1. -/
theorem calculate_rank_spec :
    (∀ v : ℚ, 0 ≤ (calculate_rank v).2.2 ∧ (calculate_rank v).2.2 ≤ 1) ∧
    ((calculate_rank 0).2.2 = 0 ∧ (calculate_rank 85).2.2 = 0 ∧
     (calculate_rank 170).2.2 = 0 ∧ (calculate_rank 255).2.2 = 0 ∧
     (calculate_rank 340).2.2 = 0 ∧ (calculate_rank 425).2.2 = 0 ∧
     (calculate_rank 510).2.2 = 0) ∧
    (∀ v : ℚ, 595 ≤ v → calculate_rank v = ("SSS", "SSS", 1)) := by
  refine ⟨?_, ?_, ?_⟩
  · intro v
    unfold calculate_rank
    dsimp only
    split
    · exact ⟨le_max_left _ _, max_le (by norm_num) (min_le_left _ _)⟩
    · norm_num
  · refine ⟨?_, ?_, ?_, ?_, ?_, ?_, ?_⟩ <;>
      norm_num +decide [calculate_rank, rank_successors, rank_thresholds, dget]
  · intro v hv
    have h595 : v ≥ (595:ℚ) := hv
    simp only [calculate_rank, rank_successors, List.foldl]
    rw [if_pos h595]
    norm_num

/-- A user state with the standard six attributes and Resilience raised to
the given value, multipliers at their initialize_new_state defaults. -/
def user_with_resilience (v : ℚ) : UserData :=
  ⟨dset initial_attributes "Resilience" v, 0, 0,
   [("streak", 1), ("event", 1), ("job", 1)], none, none, [], []⟩

/-- Claim C2, evaluated at its own scenario: with the standard attribute
names, Stray Dog is absent from the available jobs at Resilience 49 and
STILL absent at Resilience 50, because check_job_requirements looks up the
lower-case key resilience, which is never among the capitalized attribute
names, so the lookup defaults to 0 and 0 >= 50 fails; accept_job would
nonetheless install the 1.1 job multiplier. -/
theorem stray_dog_never_available :
    "Stray Dog" ∉ get_available_jobs (user_with_resilience 49) ∧
    "Stray Dog" ∉ get_available_jobs (user_with_resilience 50) ∧
    check_job_requirements ⟨[("resilience", 50)], 11/10⟩ (user_with_resilience 50) = false ∧
    dget (user_with_resilience 50).attributes "Resilience" 0 = 50 ∧
    dget (user_with_resilience 50).attributes "resilience" 0 = 0 ∧
    dget (accept_job "Stray Dog" (user_with_resilience 50) 100).1.multipliers "job" 0
      = 11/10 := by
  refine ⟨?_, ?_, ?_, ?_, ?_, ?_⟩ <;>
    norm_num +decide [get_available_jobs, jobs_catalog, check_job_requirements,
      user_with_resilience, initial_attributes, dget, dset, dfind, accept_job]

/-- The tasks store and user state of the multiplier-composition scenario:
one incomplete daily task worth basePoints = 2 on Physical, with
jobMultiplier = 1.5 and eventMultiplier = 2.0 installed. -/
def scenario_task : TaskRecord :=
  ⟨"daily_1", "Run", "", "daily", "Physical", 2, false, none, 0⟩

def scenario_tasks : Dict (Dict TaskRecord) :=
  [("daily", [("daily_1", scenario_task)]), ("weekly", []),
   ("special", []), ("penalty", [])]

def scenario_user : UserData :=
  ⟨initial_attributes, 0, 0, [("streak", 1), ("event", 2), ("job", 3/2)],
   none, none, [], []⟩

/-- Claim C1 counterexample: in the scenario basePoints = 2,
jobMultiplier = 1.5, eventMultiplier = 2.0 the completion adds exactly 3.0
points to Physical, not the 6.0 the claim asserts: the event multiplier is
never read by complete_task. -/
theorem complete_task_counterexample :
    dget (complete_task scenario_tasks scenario_user "daily_1" "daily" 5).2.2.attributes
      "Physical" 0 = 3 ∧
    ¬ dget (complete_task scenario_tasks scenario_user "daily_1" "daily" 5).2.2.attributes
      "Physical" 0 = 6 := by
  constructor <;>
    norm_num +decide [complete_task, scenario_tasks, scenario_task, scenario_user,
      initial_attributes, dget, dset, dfind]

/-- Claim C1 (amended): for every state, completing an existing, not yet
completed task adds basePoints times the job multiplier (1.0 when the job
slot is absent) to the task's attribute — the event and streak multiplier
slots are never consulted — and marks the stored task completed with a
completion timestamp. -/
theorem complete_task_adds_job_scaled_points
    (tasks : Dict (Dict TaskRecord)) (u : UserData) (task_id task_type : String)
    (now : ℚ) (cat : Dict TaskRecord) (t : TaskRecord)
    (hcat : dfind tasks task_type = some cat)
    (ht : dfind cat task_id = some t)
    (hnc : t.completed = false) :
    complete_task tasks u task_id task_type now =
      (true,
       dset tasks task_type
         (dset cat task_id { t with completed := true, completed_at := some now }),
       { u with attributes := dset u.attributes t.attr
                  (dget u.attributes t.attr 0 + t.points * dget u.multipliers "job" 1) }) := by
  simp [complete_task, hcat, ht, hnc]

/-- Witness for complete_task_adds_job_scaled_points at the multiplier
scenario: the completion succeeds and posts 2 * 1.5 = 3 to Physical. -/
theorem complete_task_adds_job_scaled_points_witness :
    complete_task scenario_tasks scenario_user "daily_1" "daily" 5 =
      (true,
       dset scenario_tasks "daily"
         (dset [("daily_1", scenario_task)] "daily_1"
           { scenario_task with completed := true, completed_at := some 5 }),
       { scenario_user with
           attributes := dset scenario_user.attributes scenario_task.attr
             (dget scenario_user.attributes scenario_task.attr 0 +
               scenario_task.points * dget scenario_user.multipliers "job" 1) }) :=
  complete_task_adds_job_scaled_points scenario_tasks scenario_user "daily_1" "daily" 5
    [("daily_1", scenario_task)] scenario_task rfl rfl rfl

/-- Claim C3: completing an already-completed task is rejected softly (the
call returns False, mirroring the warning path of tasks.py 323-325) and
leaves the tasks store and the whole user state — attributes included —
unchanged. -/
theorem complete_task_already_completed
    (tasks : Dict (Dict TaskRecord)) (u : UserData) (task_id task_type : String)
    (now : ℚ) (cat : Dict TaskRecord) (t : TaskRecord)
    (hcat : dfind tasks task_type = some cat)
    (ht : dfind cat task_id = some t)
    (hc : t.completed = true) :
    complete_task tasks u task_id task_type now = (false, tasks, u) := by
  simp [complete_task, hcat, ht, hc]

/-- Witness for complete_task_already_completed: the second completion of
the scenario task is rejected and changes nothing. -/
theorem complete_task_already_completed_witness :
    complete_task [("daily", [("daily_1", { scenario_task with completed := true })])]
      scenario_user "daily_1" "daily" 9 =
      (false, [("daily", [("daily_1", { scenario_task with completed := true })])],
       scenario_user) :=
  complete_task_already_completed _ scenario_user "daily_1" "daily" 9
    [("daily_1", { scenario_task with completed := true })]
    { scenario_task with completed := true } rfl rfl rfl

/-- Claim C8 counterexample: after the scenario task is removed, the second
remove_task call on the same id hits the bare del with an absent key, so a
KeyError is raised and caught and an error is reported — the call is not
error-free as claimed, though the task store is indeed left unchanged. -/
theorem remove_task_second_call_counterexample :
    (remove_task (remove_task scenario_tasks "daily_1" "daily").2 "daily_1" "daily").1
      = CallOutcome.errorCaught ∧
    (remove_task (remove_task scenario_tasks "daily_1" "daily").2 "daily_1" "daily").2
      = (remove_task scenario_tasks "daily_1" "daily").2 := by
  constructor <;>
    simp +decide [remove_task, scenario_tasks, dfind, dmem, dset, derase]

/-- Claim C8 (amended): remove_task with an id absent from an existing
category leaves the task store unchanged but reports a caught KeyError
instead of succeeding silently; removing in an absent category is an
error-free no-op; and removing a present id deletes exactly that entry. -/
theorem remove_task_absent_behaviour
    (tasks : Dict (Dict TaskRecord)) (task_id task_type : String) :
    (dfind tasks task_type = none →
      remove_task tasks task_id task_type = (.ok, tasks)) ∧
    (∀ cat, dfind tasks task_type = some cat → dmem cat task_id = false →
      remove_task tasks task_id task_type = (.errorCaught, tasks)) ∧
    (∀ cat, dfind tasks task_type = some cat → dmem cat task_id = true →
      remove_task tasks task_id task_type =
        (.ok, dset tasks task_type (derase cat task_id))) := by
  refine ⟨fun h => ?_, fun cat hc hm => ?_, fun cat hc hm => ?_⟩
  · simp [remove_task, h]
  · simp [remove_task, hc, hm]
  · simp [remove_task, hc, hm]

/-- Witness for remove_task_absent_behaviour: removing an id that is not in
the daily category of the scenario store reports the caught error and
changes nothing. -/
theorem remove_task_absent_behaviour_witness :
    remove_task scenario_tasks "no_such_id" "daily" =
      (CallOutcome.errorCaught, scenario_tasks) :=
  (remove_task_absent_behaviour scenario_tasks "no_such_id" "daily").2.1
    [("daily_1", scenario_task)] rfl (by decide)

/-- Claim C10: when a stage reward dict carries the all_attributes key,
grant_stage_rewards adds that amount to every attribute and ignores every
other key — the returned state differs from the input only in attributes —
and in particular the Living Legend stage reward of the Consistency King
chain, which pairs streak_multiplier 1.5 with all_attributes 50, never
touches the streak multiplier slot. -/
theorem grant_stage_rewards_all_attributes
    (rewards : Dict ℚ) (u : UserData)
    (h : dmem rewards "all_attributes" = true) :
    grant_stage_rewards rewards u =
      { u with attributes :=
                 u.attributes.map (fun p => (p.1, p.2 + dget rewards "all_attributes" 0)) } ∧
    (grant_stage_rewards rewards u).multipliers = u.multipliers ∧
    (∀ stage ∈ consistency_king_stages, stage.name = "Living Legend" →
      dmem stage.reward "streak_multiplier" = true ∧
      (grant_stage_rewards stage.reward u).multipliers = u.multipliers ∧
      (grant_stage_rewards stage.reward u).attributes =
        u.attributes.map (fun p => (p.1, p.2 + 50))) := by
  have hmain : grant_stage_rewards rewards u =
      { u with attributes :=
                 u.attributes.map (fun p => (p.1, p.2 + dget rewards "all_attributes" 0)) } := by
    simp [grant_stage_rewards, h]
  refine ⟨hmain, by rw [hmain], ?_⟩
  intro stage hs hname
  simp only [consistency_king_stages, List.mem_cons, List.not_mem_nil, or_false] at hs
  rcases hs with rfl | rfl | rfl
  · exact absurd hname (by decide)
  · exact absurd hname (by decide)
  · refine ⟨by decide, ?_, ?_⟩ <;>
      norm_num +decide [grant_stage_rewards, dmem, dget]

/-- Witness for grant_stage_rewards_all_attributes at the Advanced Athlete
reward of the Physical Mastery chain. -/
theorem grant_stage_rewards_all_attributes_witness :
    grant_stage_rewards [("all_attributes", 20)] scenario_user =
      { scenario_user with
          attributes := scenario_user.attributes.map (fun p => (p.1, p.2 + 20)) } :=
  (grant_stage_rewards_all_attributes [("all_attributes", 20)] scenario_user (by decide)).1

/-- A one-attribute user state used as witness input: Health at 5, never
active, no makeup deadline. -/
def c5_user : UserData :=
  ⟨[("Health", 5)], 0, 0, [("streak", 1), ("event", 1), ("job", 1)], none, none, [], []⟩

/-- After one update_tasks run the attribute dict is unchanged, or one
attribute is clamped to 0-or-more, or all are. -/
lemma update_tasks_attributes_shape
    (tasks : Dict (Dict TaskRecord)) (u : UserData) (now : ℚ) (r : PenaltyRand) :
    (update_tasks tasks u now r).1.attributes = u.attributes ∨
    (∃ a v, (update_tasks tasks u now r).1.attributes = dset u.attributes a (0 ⊔ v)) ∨
    (∃ pen, (update_tasks tasks u now r).1.attributes =
      u.attributes.map (fun p => (p.1, 0 ⊔ (p.2 - pen)))) := by
  unfold update_tasks
  dsimp only
  repeat' split
  all_goals first
  | exact Or.inl rfl
  | exact Or.inr (Or.inl ⟨_, _, rfl⟩)
  | exact Or.inr (Or.inr ⟨_, rfl⟩)

/-- Claim C5: from any state whose attribute values are all nonnegative,
one run of the inactivity evaluation leaves every attribute value
nonnegative, for every time, every penalty magnitude draw and both
distribution branches — penalties clamp at zero. -/
theorem update_tasks_attributes_nonneg
    (tasks : Dict (Dict TaskRecord)) (u : UserData) (now : ℚ) (r : PenaltyRand)
    (h : ∀ q ∈ u.attributes, 0 ≤ q.2) :
    ∀ q ∈ (update_tasks tasks u now r).1.attributes, 0 ≤ q.2 := by
  intro q hq
  rcases update_tasks_attributes_shape tasks u now r with he | ⟨a, v, he⟩ | ⟨pen, he⟩
  · rw [he] at hq
    exact h q hq
  · rw [he] at hq
    rcases mem_dset _ _ _ q hq with rfl | hmem
    · exact le_max_left _ _
    · exact h q hmem
  · rw [he] at hq
    rcases List.mem_map.1 hq with ⟨p, hp, rfl⟩
    exact le_max_left _ _

/-- Witness for update_tasks_attributes_nonneg: a single-attribute penalty
run on c5_user debits Health from 5 by the drawn tier-1 point and clamps at
zero, leaving the value nonnegative. -/
theorem update_tasks_attributes_nonneg_witness :
    (0:ℚ) ≤ max (0:ℚ) (5 - 1) :=
  update_tasks_attributes_nonneg scenario_tasks c5_user 2 ⟨0, true, 0⟩
    (by simp [c5_user])
    ("Health", max (0:ℚ) (5 - 1))
    (by norm_num +decide [update_tasks, incomplete_tasks_of, determine_severity,
      severity_levels, in_severity_range, randint, c5_user, scenario_tasks,
      scenario_task, dget, dset, dfind, dmem])

/-- Claim C4: when the last activity lies 2 days in the past, at least one
incomplete task exists and no makeup deadline was ever set (the parsed
default is the year-2000 epoch, day 0, so any positive current time is past
it), the evaluation applies a penalty immediately — the makeup window is
only granted at exactly one inactive day — and its magnitude is drawn from
the tier-1 range [1, 2]. -/
theorem update_tasks_two_days_tier1_penalty
    (tasks : Dict (Dict TaskRecord)) (u : UserData) (now : ℚ) (r : PenaltyRand)
    (hdays : ⌊now⌋ - ⌊u.last_active⌋ = 2)
    (hdl : u.makeup_deadline = none)
    (hnow : 0 < now)
    (hinc : incomplete_tasks_of tasks ≠ [])
    (hattr : u.attributes ≠ []) :
    ∃ n : PenaltyNotice, (update_tasks tasks u now r).2.1 = some n ∧
      1 ≤ n.points ∧ n.points ≤ 2 ∧
      (update_tasks tasks u now r).1.makeup_deadline = none := by
  have hsev : determine_severity 2 = .found 1 (1, 2) "Minor Setback" := by decide
  have hmod0 : 0 ≤ (r.magDraw : ℤ) % 2 := Int.emod_nonneg _ (by norm_num)
  have hmod2 : (r.magDraw : ℤ) % 2 < 2 := Int.emod_lt_of_pos _ (by norm_num)
  have hrand1 : 1 ≤ randint 1 2 r.magDraw := by unfold randint; omega
  have hrand2 : randint 1 2 r.magDraw ≤ 2 := by unfold randint; omega
  unfold update_tasks
  rw [hdays, hdl]
  simp only [hsev, Option.getD_none]
  have h20 : (2:ℤ) > 0 := by norm_num
  have h21 : ¬ ((2:ℤ) = 1) := by norm_num
  rw [if_pos h20, if_pos hinc, if_neg h21, if_pos hnow, if_neg hattr]
  cases hb : r.branchSingle
  · rw [if_neg (by simp [hb])]
    exact ⟨⟨randint 1 2 r.magDraw, false⟩, rfl, hrand1, hrand2, rfl⟩
  · rw [if_pos (by simp [hb])]
    exact ⟨⟨randint 1 2 r.magDraw, true⟩, rfl, hrand1, hrand2, rfl⟩

/-- Witness for update_tasks_two_days_tier1_penalty: c5_user last active at
day 0 evaluated at day 2 with one incomplete scenario task. -/
theorem update_tasks_two_days_tier1_penalty_witness :
    ∃ n : PenaltyNotice,
      (update_tasks scenario_tasks c5_user 2 ⟨0, true, 0⟩).2.1 = some n ∧
      1 ≤ n.points ∧ n.points ≤ 2 ∧
      (update_tasks scenario_tasks c5_user 2 ⟨0, true, 0⟩).1.makeup_deadline = none :=
  update_tasks_two_days_tier1_penalty scenario_tasks c5_user 2 ⟨0, true, 0⟩
    (by norm_num [c5_user]) rfl (by norm_num)
    (by decide) (by decide)

/-- One check_chain_progress evaluation either leaves the stage index and
the user state untouched, or the stage at the current index satisfied its
requirement, exactly its reward was granted, and the index advanced by
exactly one. -/
lemma check_chain_progress_cases (c : Chain) (u : UserData) (now : ℚ) :
    ((check_chain_progress c u now).1.current_stage = c.current_stage ∧
      (check_chain_progress c u now).2 = u) ∨
    (∃ stage, c.stages.get? c.current_stage = some stage ∧
      evalChainReq stage.requirement u = true ∧
      (check_chain_progress c u now).2 = grant_stage_rewards stage.reward u ∧
      (check_chain_progress c u now).1.current_stage = c.current_stage + 1) := by
  unfold check_chain_progress
  by_cases hst : c.started_at = none <;>
    simp only [hst, if_true, if_false, reduceIte] <;>
    rcases hg : c.stages.get? c.current_stage with _ | stage <;>
    simp only [hg] <;>
    [skip; by_cases hr : evalChainReq stage.requirement u = true;
     skip; by_cases hr : evalChainReq stage.requirement u = true]
  all_goals try simp only [hr, if_true, if_false, Bool.false_eq_true, reduceIte]
  all_goals try split
  all_goals first
  | exact Or.inl ⟨rfl, rfl⟩
  | exact Or.inl ⟨rfl, trivial⟩
  | exact Or.inr ⟨stage, rfl, hr, rfl, rfl⟩
  | exact Or.inr ⟨stage, hg, hr, rfl, rfl⟩
  | exact Or.inr ⟨stage, rfl, hr, rfl, trivial⟩
  | exact Or.inl ⟨trivial, trivial⟩

/-- The chain at index i after one check_chains pass: its stage index never
decreased, and a completed chain came through identical. -/
lemma check_chains_get (chains : List Chain) :
    ∀ u now i c, chains.get? i = some c →
      ∃ c2, (check_chains chains u now).1.get? i = some c2 ∧
        c.current_stage ≤ c2.current_stage ∧ (c.completed = true → c2 = c) := by
  induction chains with
  | nil => intro u now i c h; simp at h
  | cons hd tl ih =>
    intro u now i c h
    unfold check_chains
    by_cases hc : hd.completed = true
    · simp only [hc, if_true]
      cases i with
      | zero =>
        have hcd : c = hd := by simpa using h.symm
        subst hcd
        exact ⟨c, rfl, le_refl _, fun _ => rfl⟩
      | succ n =>
        have h2 : tl.get? n = some c := by simpa using h
        obtain ⟨c2, g1, g2, g3⟩ := ih u now n c h2
        exact ⟨c2, by simpa using g1, g2, g3⟩
    · simp only [hc, Bool.false_eq_true, reduceIte]
      cases i with
      | zero =>
        have hcd : c = hd := by simpa using h.symm
        subst hcd
        refine ⟨(check_chain_progress c u now).1, rfl, ?_, fun hcomp => absurd hcomp hc⟩
        rcases check_chain_progress_cases c u now with ⟨h1, _⟩ | ⟨stage, _, _, _, h1⟩ <;>
          omega
      | succ n =>
        have h2 : tl.get? n = some c := by simpa using h
        obtain ⟨c2, g1, g2, g3⟩ :=
          ih (check_chain_progress hd u now).2 now n c h2
        exact ⟨c2, by simpa using g1, g2, g3⟩

/-- Completed chains and their stage indices survive any sequence of
check_chains evaluations untouched and non-decreasing, respectively. -/
lemma run_chain_checks_get (evals : List (UserData × ℚ)) :
    ∀ chains i c, chains.get? i = some c →
      ∃ c2, (run_chain_checks chains evals).get? i = some c2 ∧
        c.current_stage ≤ c2.current_stage ∧ (c.completed = true → c2 = c) := by
  induction evals with
  | nil => intro chains i c h; exact ⟨c, h, le_refl _, fun _ => rfl⟩
  | cons e rest ih =>
    intro chains i c h
    obtain ⟨c1, h1, h2, h3⟩ := check_chains_get chains e.1 e.2 i c h
    obtain ⟨c2, g1, g2, g3⟩ := ih (check_chains chains e.1 e.2).1 i c1 h1
    refine ⟨c2, g1, le_trans h2 g2, fun hcomp => ?_⟩
    have e1 : c1 = c := h3 hcomp
    have e2 : c1.completed = true := by rw [e1]; exact hcomp
    rw [g3 e2, e1]

/-- check_chains is the identity on a list of completed chains: none of
them is evaluated and the user state is returned untouched. -/
lemma check_chains_all_completed (chains : List Chain) :
    ∀ u now, (∀ c ∈ chains, c.completed = true) →
      check_chains chains u now = (chains, u) := by
  induction chains with
  | nil => intro u now _; rfl
  | cons hd tl ih =>
    intro u now h
    have hhd : hd.completed = true := h hd (List.mem_cons_self hd tl)
    unfold check_chains
    simp only [hhd, if_true]
    rw [ih u now (fun c hc => h c (List.mem_cons_of_mem hd hc))]

/-- Claim C6: chain evaluation is monotone and strictly sequential — one
evaluation moves a chain's stage index by at most one and never backwards;
the only reward an evaluation can grant for a chain is the reward of the
stage sitting at its current index (so stage k is granted only after the
index has passed 0..k-1 one step at a time); a list of completed chains is
returned untouched together with the unchanged user state; and across any
sequence of evaluations every chain's index is non-decreasing and a
completed chain is never mutated again. -/
theorem chain_evaluation_monotone :
    (∀ c u now, c.current_stage ≤ (check_chain_progress c u now).1.current_stage ∧
      (check_chain_progress c u now).1.current_stage ≤ c.current_stage + 1) ∧
    (∀ c u now,
      ((check_chain_progress c u now).1.current_stage = c.current_stage ∧
        (check_chain_progress c u now).2 = u) ∨
      (∃ stage, c.stages.get? c.current_stage = some stage ∧
        evalChainReq stage.requirement u = true ∧
        (check_chain_progress c u now).2 = grant_stage_rewards stage.reward u ∧
        (check_chain_progress c u now).1.current_stage = c.current_stage + 1)) ∧
    (∀ chains u now, (∀ c ∈ chains, c.completed = true) →
      check_chains chains u now = (chains, u)) ∧
    (∀ chains evals i c, chains.get? i = some c →
      ∃ c2, (run_chain_checks chains evals).get? i = some c2 ∧
        c.current_stage ≤ c2.current_stage ∧ (c.completed = true → c2 = c)) := by
  refine ⟨fun c u now => ?_, fun c u now => check_chain_progress_cases c u now,
          fun chains u now h => check_chains_all_completed chains u now h,
          fun chains evals i c h => run_chain_checks_get evals chains i c h⟩
  rcases check_chain_progress_cases c u now with ⟨h1, _⟩ | ⟨stage, _, _, _, h1⟩ <;> omega
